import Mathlib

/-!
Shallow embedding of `src/dumpsock.cpp`: a single-connection TCP capture
pipeline built around a `Context = Env | Error` tagged union, where every
pipeline step is guarded so that a `Failed` context short-circuits all
further work, and a final `dump` step writes either the captured bytes or
the diagnostic.

Operating-system effects (WSAStartup, socket, bind, listen, accept, recv,
fwrite) are modelled by an `Oracle` supplying each call's result, and every
step additionally returns the list of system calls it performed, so that
short-circuiting ("no socket call happens after a failure") is provable.
-/

/-- Platform constants from winsock2. `INVALID_SOCKET` is `(SOCKET)(~0)`
on 64-bit Windows, `SOCKET_ERROR` is `-1`, `EXIT_SUCCESS`/`EXIT_FAILURE`
are the usual 0/1. -/
def INVALID_SOCKET : Nat := 2 ^ 64 - 1

def SOCKET_ERROR : Int := -1

def EXIT_SUCCESS : Nat := 0

def EXIT_FAILURE : Nat := 1

/-- `htons` on a `uint16_t` value: byte-swap of `p % 2^16`. -/
def htons (p : Nat) : Nat := (p % 2 ^ 16) % 256 * 256 + (p % 2 ^ 16) / 256

/-- The `sockaddr_in` fields the program sets: family, network-order port
and the four address bytes `s_b1..s_b4`. -/
structure SockAddrIn where
  sin_family : Nat
  sin_port : Nat
  s_b1 : Nat
  s_b2 : Nat
  s_b3 : Nat
  s_b4 : Nat
deriving DecidableEq, Repr

/-- `AF_INET` = 2. -/
def AF_INET : Nat := 2

/-- The free function `sockAddrForPort` (dumpsock.cpp:14-29): an IPv4
address with every address byte zero (the wildcard 0.0.0.0) and the given
port in network byte order. The `int` argument of the caller is narrowed
to `uint16_t`, which `htons`'s `% 2^16` performs. -/
def sockAddrForPort (port : Nat) : SockAddrIn :=
  { sin_family := AF_INET
    sin_port := htons port
    s_b1 := 0, s_b2 := 0, s_b3 := 0, s_b4 := 0 }

/-- Alias so the identically-named pipeline step inside `Monadish` can
still refer to the free function. -/
def win32SockAddrForPort : Nat → SockAddrIn := sockAddrForPort

/-- One result of a `recv` call: either it returned `bytes.length` and
wrote `bytes` into the buffer (`bytes = []` is the zero-byte graceful
close), or it returned `SOCKET_ERROR`. -/
inductive RecvEvent where
  | chunk (bytes : List Nat)
  | sockError
deriving DecidableEq, Repr

/-- A ghost record of a system call the program performed, with the
arguments the source passes. -/
inductive SysCall where
  | wsaStartup
  | socketCreate
  | bind (sock : Nat) (addr : SockAddrIn)
  | listen (sock : Nat) (backlog : Nat)
  | accept (sock : Nat)
  | recv (sock : Nat) (len : Nat)
deriving DecidableEq, Repr

/-- Results of the OS calls a run can make, supplied from outside: the
embedding's stand-in for the host environment. -/
structure Oracle where
  wsaResult : Int
  socketResult : Nat
  bindResult : Int
  listenResult : Int
  acceptResult : Nat
  recvEvents : List RecvEvent

/-- Bytes of appended output; the program writes captured data with
`fwrite(..., stdout)` and diagnostics with `std::cout`, both of which are
the standard-output stream; nothing in the source writes standard error. -/
structure IOOut where
  stdoutBytes : List Nat
  stderrBytes : List Nat
deriving DecidableEq, Repr

def emptyOut : IOOut := { stdoutBytes := [], stderrBytes := [] }

/-- Byte encoding of a (7-bit, here) string, for `std::cout << msg`. -/
def strBytes (s : String) : List Nat := s.data.map Char.toNat

namespace Monadish

/-- `Monadish::Env` (dumpsock.cpp:39-45). `wsaData`'s contents are never
read, so it is a unit field; `received` is the captured byte buffer. -/
structure Env where
  wsaData : Unit
  socket : Nat
  addr : SockAddrIn
  incomingDataSocket : Nat
  received : List Nat
deriving DecidableEq, Repr

/-- `Monadish::Context = std::variant<Env, Error>` (dumpsock.cpp:56). -/
inductive Context where
  | active (env : Env)
  | failed (msg : String)
deriving DecidableEq, Repr

/-- `Monadish::Result = std::variant<Nil, Error>` (dumpsock.cpp:57). -/
inductive MResult where
  | nil
  | error (msg : String)
deriving DecidableEq, Repr

/-- `Monadish::freshContext` (dumpsock.cpp:59-61): `Env{}` value-initializes
every member. -/
def freshContext : Context :=
  .active { wsaData := (), socket := 0
            addr := { sin_family := 0, sin_port := 0
                      s_b1 := 0, s_b2 := 0, s_b3 := 0, s_b4 := 0 }
            incomingDataSocket := 0, received := [] }

/-- `Monadish::errorGuard` (dumpsock.cpp:68-76), instrumented with the list
of system calls the callable performed: on a `failed` context the callable
never runs (no calls); otherwise the callable's updated environment is kept
on `nil` and the context is replaced by the error on `error`. -/
def errorGuard (ctx : Context) (f : Env → MResult × Env × List SysCall) :
    Context × List SysCall :=
  match ctx with
  | .failed msg => (.failed msg, [])
  | .active env =>
    match f env with
    | (.nil, env', calls) => (.active env', calls)
    | (.error msg, _, calls) => (.failed msg, calls)

/-- `Monadish::init` (dumpsock.cpp:89-97): `WSAStartup` returning nonzero
fails with a diagnostic carrying the status code. -/
def init (ctx : Context) (wsaResult : Int) : Context × List SysCall :=
  errorGuard ctx (fun env =>
    if wsaResult ≠ 0 then
      (.error ("WSAStartup failed: " ++ toString wsaResult), env, [.wsaStartup])
    else
      (.nil, env, [.wsaStartup]))

/-- `Monadish::setupTcpSocket` (dumpsock.cpp:99-107): stores the new socket
handle; `INVALID_SOCKET` fails. -/
def setupTcpSocket (ctx : Context) (socketResult : Nat) : Context × List SysCall :=
  errorGuard ctx (fun env =>
    let env' := { env with socket := socketResult }
    if socketResult = INVALID_SOCKET then
      (.error "Couldn't create a tcp socket", env', [.socketCreate])
    else
      (.nil, env', [.socketCreate]))

/-- `Monadish::sockAddrForPort` (dumpsock.cpp:109-114): stores the wildcard
address for the port; makes no system call and always returns `Nil`. -/
def sockAddrForPort (ctx : Context) (port : Nat) : Context × List SysCall :=
  errorGuard ctx (fun env =>
    (.nil, { env with addr := win32SockAddrForPort port }, []))

/-- `Monadish::bindSocket` (dumpsock.cpp:116-124): `bind` returning
`SOCKET_ERROR` fails. -/
def bindSocket (ctx : Context) (bindResult : Int) : Context × List SysCall :=
  errorGuard ctx (fun env =>
    if bindResult = SOCKET_ERROR then
      (.error "socket bind error", env, [.bind env.socket env.addr])
    else
      (.nil, env, [.bind env.socket env.addr]))

/-- `Monadish::listenSocket` (dumpsock.cpp:126-134): `listen` with the
hard-coded backlog 1; `SOCKET_ERROR` fails. -/
def listenSocket (ctx : Context) (listenResult : Int) : Context × List SysCall :=
  errorGuard ctx (fun env =>
    if listenResult = SOCKET_ERROR then
      (.error "socket listen error", env, [.listen env.socket 1])
    else
      (.nil, env, [.listen env.socket 1]))

/-- `Monadish::acceptSocket` (dumpsock.cpp:136-144): stores the accepted
connection socket; `INVALID_SOCKET` fails. -/
def acceptSocket (ctx : Context) (acceptResult : Nat) : Context × List SysCall :=
  errorGuard ctx (fun env =>
    let env' := { env with incomingDataSocket := acceptResult }
    if acceptResult = INVALID_SOCKET then
      (.error "socket accept error", env', [.accept env.socket])
    else
      (.nil, env', [.accept env.socket]))

/-- The `while (result = recv(...))` loop of `Monadish::drainSocket`
(dumpsock.cpp:155-162), reading successive `recv` outcomes from `events`:
a `SOCKET_ERROR` read returns the read error; a zero-byte read leaves the
loop with `Nil`; an `n`-byte read appends those `n` bytes to the buffer.
`none` models the loop blocking forever because no further `recv` outcome
exists. The `Nat` is the number of `recv` calls made. -/
def drainLoop (acc : List Nat) : List RecvEvent → Option (MResult × List Nat × Nat)
  | [] => none
  | .sockError :: _ => some (.error "socket error during read", acc, 1)
  | .chunk bs :: rest =>
    if bs = [] then some (.nil, acc, 1)
    else
      match drainLoop (acc ++ bs) rest with
      | none => none
      | some (r, fin, n) => some (r, fin, n + 1)

/-- `Monadish::drainSocket` (dumpsock.cpp:146-166): guarded drain of the
accepted connection into `received` (the `reserve` call is semantically a
no-op). `none` models the loop never terminating. -/
def drainSocket (ctx : Context) (events : List RecvEvent) :
    Option (Context × List SysCall) :=
  match ctx with
  | .failed msg => some (.failed msg, [])
  | .active env =>
    match drainLoop env.received events with
    | none => none
    | some (.nil, fin, n) =>
      some (.active { env with received := fin },
            List.replicate n (.recv env.incomingDataSocket 4096))
    | some (.error msg, _, n) =>
      some (.failed msg, List.replicate n (.recv env.incomingDataSocket 4096))

/-- `Monadish::dump` (dumpsock.cpp:168-177): on `active`, `fwrite` the
buffer to stdout — the write's return value (`fwriteResult`, the number of
elements actually written) is discarded and the callable returns `Nil`
unconditionally; on `failed`, `std::cout << err.msg << std::endl` writes
the diagnostic and a newline to standard output. The context itself is
left as it was in both branches. -/
def dump (ctx : Context) (out : IOOut) (_fwriteResult : Nat) : Context × IOOut :=
  match ctx with
  | .failed msg =>
    (.failed msg, { out with stdoutBytes := out.stdoutBytes ++ strBytes msg ++ [10] })
  | .active env =>
    match (MResult.nil, { out with stdoutBytes := out.stdoutBytes ++ env.received }) with
    | (.nil, out') => (.active env, out')
    | (.error msg, out') => (.failed msg, out')

/-- `Monadish::getExitCode` (dumpsock.cpp:179-181). -/
def getExitCode (ctx : Context) : Nat :=
  match ctx with
  | .failed _ => EXIT_FAILURE
  | .active _ => EXIT_SUCCESS

end Monadish

open Monadish in
/-- The step sequence of `main` (dumpsock.cpp:185-196) before the report
step, with the concatenated system-call trace; `none` when the drain loop
never terminates. -/
def runSteps (o : Oracle) : Option (Monadish.Context × List SysCall) :=
  let s1 := init freshContext o.wsaResult
  let s2 := setupTcpSocket s1.1 o.socketResult
  let s3 := Monadish.sockAddrForPort s2.1 9999
  let s4 := bindSocket s3.1 o.bindResult
  let s5 := listenSocket s4.1 o.listenResult
  let s6 := acceptSocket s5.1 o.acceptResult
  match drainSocket s6.1 o.recvEvents with
  | none => none
  | some (c7, t7) => some (c7, s1.2 ++ s2.2 ++ s3.2 ++ s4.2 ++ s5.2 ++ s6.2 ++ t7)

/-- The whole of `main` (dumpsock.cpp:185-197): run the pipeline, report
via `dump` starting from empty output streams, and return the exit code
together with the final output and the system-call trace. -/
def runMain (o : Oracle) (fwriteResult : Nat) :
    Option (Nat × IOOut × List SysCall) :=
  match runSteps o with
  | none => none
  | some (c, t) =>
    some (Monadish.getExitCode (Monadish.dump c emptyOut fwriteResult).1,
      (Monadish.dump c emptyOut fwriteResult).2, t)

/-! ### Trace predicates and drain-loop lemmas -/

/-- The recv trace reaches a zero-byte read before any transport error:
the drain loop's sole success condition. -/
def closedGracefully : List RecvEvent → Prop
  | [] => False
  | .sockError :: _ => False
  | .chunk bs :: rest => bs = [] ∨ (bs ≠ [] ∧ closedGracefully rest)

/-- `closedGracefully` is decidable, so witnesses can evaluate it. -/
def closedGracefullyDec : (evs : List RecvEvent) → Decidable (closedGracefully evs)
  | [] => isFalse (fun h => h)
  | .sockError :: _ => isFalse (fun h => h)
  | .chunk bs :: rest =>
    have : Decidable (closedGracefully rest) := closedGracefullyDec rest
    decidable_of_iff (bs = [] ∨ (bs ≠ [] ∧ closedGracefully rest)) Iff.rfl

instance : ∀ evs, Decidable (closedGracefully evs) := closedGracefullyDec

/-- The recv trace delivers exactly `B`, split into nonempty chunks of at
most the 4096-byte transfer size, followed by a zero-byte (graceful close)
read; entries after the close are never consumed. -/
def deliversThenCloses (B : List Nat) (evs : List RecvEvent) : Prop :=
  ∃ (chunks : List (List Nat)) (rest : List RecvEvent),
    evs = List.map RecvEvent.chunk chunks ++ RecvEvent.chunk [] :: rest ∧
    (∀ c ∈ chunks, c ≠ [] ∧ c.length ≤ 4096) ∧ chunks.flatten = B

/-- All five fallible pre-drain system calls succeed. -/
def stepsOk (o : Oracle) : Prop :=
  o.wsaResult = 0 ∧ o.socketResult ≠ INVALID_SOCKET ∧
  o.bindResult ≠ SOCKET_ERROR ∧ o.listenResult ≠ SOCKET_ERROR ∧
  o.acceptResult ≠ INVALID_SOCKET

instance (o : Oracle) : Decidable (stepsOk o) := by unfold stepsOk; infer_instance

def isAcceptCall : SysCall → Bool
  | .wsaStartup => false
  | .socketCreate => false
  | .bind _ _ => false
  | .listen _ _ => false
  | .accept _ => true
  | .recv _ _ => false

def isRecvCall : SysCall → Bool
  | .wsaStartup => false
  | .socketCreate => false
  | .bind _ _ => false
  | .listen _ _ => false
  | .accept _ => false
  | .recv _ _ => true

namespace Monadish

theorem drainLoop_nil_eq (acc : List Nat) : drainLoop acc [] = none := rfl

theorem drainLoop_sockError_eq (acc : List Nat) (rest : List RecvEvent) :
    drainLoop acc (RecvEvent.sockError :: rest) =
      some (.error "socket error during read", acc, 1) := rfl

theorem drainLoop_chunk_eq (acc bs : List Nat) (rest : List RecvEvent) :
    drainLoop acc (RecvEvent.chunk bs :: rest) =
      if bs = [] then some (.nil, acc, 1)
      else
        match drainLoop (acc ++ bs) rest with
        | none => none
        | some (r, fin, n) => some (r, fin, n + 1) := rfl

theorem drainLoop_close (chunks : List (List Nat)) (h : ∀ c ∈ chunks, c ≠ []) :
    ∀ acc rest,
      drainLoop acc (List.map RecvEvent.chunk chunks ++ RecvEvent.chunk [] :: rest) =
        some (.nil, acc ++ chunks.flatten, chunks.length + 1) := by
  induction chunks with
  | nil => intro acc rest; simp [drainLoop_chunk_eq]
  | cons c cs ih =>
    intro acc rest
    have hc : c ≠ [] := h c (by simp)
    rw [List.map_cons, List.cons_append, drainLoop_chunk_eq, if_neg hc,
      ih (fun c' hc' => h c' (List.mem_cons_of_mem _ hc')) (acc ++ c) rest]
    simp [List.append_assoc]

theorem drainLoop_error (chunks : List (List Nat)) (h : ∀ c ∈ chunks, c ≠ []) :
    ∀ acc rest,
      drainLoop acc (List.map RecvEvent.chunk chunks ++ RecvEvent.sockError :: rest) =
        some (.error "socket error during read", acc ++ chunks.flatten,
          chunks.length + 1) := by
  induction chunks with
  | nil => intro acc rest; simp [drainLoop_sockError_eq]
  | cons c cs ih =>
    intro acc rest
    have hc : c ≠ [] := h c (by simp)
    rw [List.map_cons, List.cons_append, drainLoop_chunk_eq, if_neg hc,
      ih (fun c' hc' => h c' (List.mem_cons_of_mem _ hc')) (acc ++ c) rest]
    simp [List.append_assoc]

theorem drainLoop_nil_iff (evs : List RecvEvent) :
    ∀ acc, (∃ fin n, drainLoop acc evs = some (.nil, fin, n)) ↔ closedGracefully evs := by
  induction evs with
  | nil => intro acc; simp [drainLoop_nil_eq, closedGracefully]
  | cons e rest ih =>
    intro acc
    cases e with
    | sockError => simp [drainLoop_sockError_eq, closedGracefully]
    | chunk bs =>
      by_cases hbs : bs = []
      · simp [drainLoop_chunk_eq, hbs, closedGracefully]
      · rw [show closedGracefully (RecvEvent.chunk bs :: rest) =
            (bs = [] ∨ (bs ≠ [] ∧ closedGracefully rest)) from rfl]
        rw [drainLoop_chunk_eq, if_neg hbs]
        constructor
        · rintro ⟨fin, n, hfin⟩
          rcases hd : drainLoop (acc ++ bs) rest with _ | ⟨r, fin', n'⟩
          · rw [hd] at hfin; exact absurd hfin (by simp)
          · rw [hd] at hfin
            simp only [Option.some.injEq, Prod.mk.injEq] at hfin
            refine Or.inr ⟨hbs, ?_⟩
            rw [← ih (acc ++ bs)]
            exact ⟨fin', n', by rw [hd, hfin.1]⟩
        · rintro (hcl | ⟨-, hcl⟩)
          · exact absurd hcl hbs
          · rcases (ih (acc ++ bs)).mpr hcl with ⟨fin, n, hfin⟩
            exact ⟨fin, n + 1, by rw [hfin]⟩

theorem closedGracefully_iff_decomp (evs : List RecvEvent) :
    closedGracefully evs ↔
      ∃ (chunks : List (List Nat)) (rest : List RecvEvent),
        evs = List.map RecvEvent.chunk chunks ++ RecvEvent.chunk [] :: rest ∧
        ∀ c ∈ chunks, c ≠ [] := by
  induction evs with
  | nil =>
    simp only [show closedGracefully [] = False from rfl, false_iff]
    rintro ⟨chunks, rest, habs, -⟩
    cases chunks <;> simp at habs
  | cons e rest ih =>
    cases e with
    | sockError =>
      simp only [show closedGracefully (RecvEvent.sockError :: rest) = False from rfl,
        false_iff]
      rintro ⟨chunks, rest', habs, -⟩
      cases chunks <;> simp at habs
    | chunk bs =>
      rw [show closedGracefully (RecvEvent.chunk bs :: rest) =
          (bs = [] ∨ (bs ≠ [] ∧ closedGracefully rest)) from rfl]
      constructor
      · rintro (hbs | ⟨hbs, hcl⟩)
        · exact ⟨[], rest, by simp [hbs], by simp⟩
        · rcases ih.mp hcl with ⟨chunks, rest', hdec, hne⟩
          refine ⟨bs :: chunks, rest', by simp [hdec], ?_⟩
          intro c hc
          rcases List.mem_cons.mp hc with hc | hc
          · exact hc ▸ hbs
          · exact hne c hc
      · rintro ⟨chunks, rest', hdec, hne⟩
        cases chunks with
        | nil =>
          simp only [List.map_nil, List.nil_append, List.cons.injEq,
            RecvEvent.chunk.injEq] at hdec
          exact Or.inl hdec.1
        | cons c cs =>
          simp only [List.map_cons, List.cons_append, List.cons.injEq,
            RecvEvent.chunk.injEq] at hdec
          rcases hdec with ⟨hbc, htail⟩
          refine Or.inr ⟨hbc ▸ hne c (by simp), ?_⟩
          exact ih.mpr ⟨cs, rest', htail, fun c' hc' => hne c' (by simp [hc'])⟩

end Monadish

/-! ### Characterization of the pipeline prefix -/

/-- The environment as it stands after a successful accept step, with the
given captured buffer. -/
def envAfterAccept (o : Oracle) (buf : List Nat) : Monadish.Env :=
  { wsaData := (), socket := o.socketResult, addr := sockAddrForPort 9999
    incomingDataSocket := o.acceptResult, received := buf }

namespace Monadish

theorem init_failed (msg : String) (w : Int) : init (.failed msg) w = (.failed msg, []) := rfl

theorem init_ok (env : Env) (w : Int) (h : w = 0) :
    init (.active env) w = (.active env, [.wsaStartup]) := by
  simp [init, errorGuard, h]

theorem init_err (env : Env) (w : Int) (h : w ≠ 0) :
    init (.active env) w =
      (.failed ("WSAStartup failed: " ++ toString w), [.wsaStartup]) := by
  simp [init, errorGuard, h]

theorem setupTcpSocket_failed (msg : String) (s : Nat) :
    setupTcpSocket (.failed msg) s = (.failed msg, []) := rfl

theorem setupTcpSocket_ok (env : Env) (s : Nat) (h : s ≠ INVALID_SOCKET) :
    setupTcpSocket (.active env) s =
      (.active { env with socket := s }, [.socketCreate]) := by
  simp [setupTcpSocket, errorGuard, h]

theorem setupTcpSocket_err (env : Env) (s : Nat) (h : s = INVALID_SOCKET) :
    setupTcpSocket (.active env) s =
      (.failed "Couldn't create a tcp socket", [.socketCreate]) := by
  simp [setupTcpSocket, errorGuard, h]

theorem sockAddrForPort_failed (msg : String) (port : Nat) :
    sockAddrForPort (.failed msg) port = (.failed msg, []) := rfl

theorem sockAddrForPort_active (env : Env) (port : Nat) :
    sockAddrForPort (.active env) port =
      (.active { env with addr := win32SockAddrForPort port }, []) := rfl

theorem bindSocket_failed (msg : String) (b : Int) :
    bindSocket (.failed msg) b = (.failed msg, []) := rfl

theorem bindSocket_ok (env : Env) (b : Int) (h : b ≠ SOCKET_ERROR) :
    bindSocket (.active env) b = (.active env, [.bind env.socket env.addr]) := by
  simp [bindSocket, errorGuard, h]

theorem bindSocket_err (env : Env) (b : Int) (h : b = SOCKET_ERROR) :
    bindSocket (.active env) b =
      (.failed "socket bind error", [.bind env.socket env.addr]) := by
  simp [bindSocket, errorGuard, h]

theorem listenSocket_failed (msg : String) (l : Int) :
    listenSocket (.failed msg) l = (.failed msg, []) := rfl

theorem listenSocket_ok (env : Env) (l : Int) (h : l ≠ SOCKET_ERROR) :
    listenSocket (.active env) l = (.active env, [.listen env.socket 1]) := by
  simp [listenSocket, errorGuard, h]

theorem listenSocket_err (env : Env) (l : Int) (h : l = SOCKET_ERROR) :
    listenSocket (.active env) l =
      (.failed "socket listen error", [.listen env.socket 1]) := by
  simp [listenSocket, errorGuard, h]

theorem acceptSocket_failed (msg : String) (a : Nat) :
    acceptSocket (.failed msg) a = (.failed msg, []) := rfl

theorem acceptSocket_ok (env : Env) (a : Nat) (h : a ≠ INVALID_SOCKET) :
    acceptSocket (.active env) a =
      (.active { env with incomingDataSocket := a }, [.accept env.socket]) := by
  simp [acceptSocket, errorGuard, h]

theorem acceptSocket_err (env : Env) (a : Nat) (h : a = INVALID_SOCKET) :
    acceptSocket (.active env) a =
      (.failed "socket accept error", [.accept env.socket]) := by
  simp [acceptSocket, errorGuard, h]

theorem drainSocket_failed (msg : String) (evs : List RecvEvent) :
    drainSocket (.failed msg) evs = some (.failed msg, []) := rfl

theorem runSteps_wsaFail (o : Oracle) (h : o.wsaResult ≠ 0) :
    runSteps o = some (.failed ("WSAStartup failed: " ++ toString o.wsaResult),
      [.wsaStartup]) := by
  simp [runSteps, freshContext, init_err _ _ h, setupTcpSocket_failed,
    sockAddrForPort_failed, bindSocket_failed, listenSocket_failed,
    acceptSocket_failed, drainSocket_failed]

theorem runSteps_socketFail (o : Oracle) (hw : o.wsaResult = 0)
    (h : o.socketResult = INVALID_SOCKET) :
    runSteps o = some (.failed "Couldn't create a tcp socket",
      [.wsaStartup, .socketCreate]) := by
  simp [runSteps, freshContext, init_ok _ _ hw, setupTcpSocket_err _ _ h,
    sockAddrForPort_failed, bindSocket_failed, listenSocket_failed,
    acceptSocket_failed, drainSocket_failed]

theorem runSteps_bindFail (o : Oracle) (hw : o.wsaResult = 0)
    (hs : o.socketResult ≠ INVALID_SOCKET) (h : o.bindResult = SOCKET_ERROR) :
    runSteps o = some (.failed "socket bind error",
      [.wsaStartup, .socketCreate, .bind o.socketResult (win32SockAddrForPort 9999)]) := by
  simp [runSteps, freshContext, init_ok _ _ hw, setupTcpSocket_ok _ _ hs,
    sockAddrForPort_active, bindSocket_err _ _ h, listenSocket_failed,
    acceptSocket_failed, drainSocket_failed, win32SockAddrForPort]

theorem runSteps_listenFail (o : Oracle) (hw : o.wsaResult = 0)
    (hs : o.socketResult ≠ INVALID_SOCKET) (hb : o.bindResult ≠ SOCKET_ERROR)
    (h : o.listenResult = SOCKET_ERROR) :
    runSteps o = some (.failed "socket listen error",
      [.wsaStartup, .socketCreate, .bind o.socketResult (win32SockAddrForPort 9999),
       .listen o.socketResult 1]) := by
  simp [runSteps, freshContext, init_ok _ _ hw, setupTcpSocket_ok _ _ hs,
    sockAddrForPort_active, bindSocket_ok _ _ hb, listenSocket_err _ _ h,
    acceptSocket_failed, drainSocket_failed, win32SockAddrForPort]

theorem runSteps_acceptFail (o : Oracle) (hw : o.wsaResult = 0)
    (hs : o.socketResult ≠ INVALID_SOCKET) (hb : o.bindResult ≠ SOCKET_ERROR)
    (hl : o.listenResult ≠ SOCKET_ERROR) (h : o.acceptResult = INVALID_SOCKET) :
    runSteps o = some (.failed "socket accept error",
      [.wsaStartup, .socketCreate, .bind o.socketResult (win32SockAddrForPort 9999),
       .listen o.socketResult 1, .accept o.socketResult]) := by
  simp [runSteps, freshContext, init_ok _ _ hw, setupTcpSocket_ok _ _ hs,
    sockAddrForPort_active, bindSocket_ok _ _ hb, listenSocket_ok _ _ hl,
    acceptSocket_err _ _ h, drainSocket_failed, win32SockAddrForPort]

theorem runSteps_allOk (o : Oracle) (h : stepsOk o) :
    runSteps o =
      match drainLoop [] o.recvEvents with
      | none => none
      | some (.nil, fin, n) =>
        some (.active (envAfterAccept o fin),
          [.wsaStartup, .socketCreate, .bind o.socketResult (win32SockAddrForPort 9999),
           .listen o.socketResult 1, .accept o.socketResult] ++
          List.replicate n (.recv o.acceptResult 4096))
      | some (.error msg, _, n) =>
        some (.failed msg,
          [.wsaStartup, .socketCreate, .bind o.socketResult (win32SockAddrForPort 9999),
           .listen o.socketResult 1, .accept o.socketResult] ++
          List.replicate n (.recv o.acceptResult 4096)) := by
  obtain ⟨hw, hs, hb, hl, ha⟩ := h
  simp only [runSteps, freshContext, init_ok _ _ hw, setupTcpSocket_ok _ _ hs,
    sockAddrForPort_active, bindSocket_ok _ _ hb, listenSocket_ok _ _ hl,
    acceptSocket_ok _ _ ha, drainSocket, win32SockAddrForPort, envAfterAccept]
  rcases hd : drainLoop [] o.recvEvents with _ | ⟨r, fin, n⟩
  · simp
  · cases r with
    | nil => simp
    | error msg => simp

end Monadish

/-! ### Report-step and whole-run helper lemmas -/

namespace Monadish

theorem dump_active (env : Env) (out : IOOut) (r : Nat) :
    dump (.active env) out r =
      (.active env, { out with stdoutBytes := out.stdoutBytes ++ env.received }) := rfl

theorem dump_failed (msg : String) (out : IOOut) (r : Nat) :
    dump (.failed msg) out r =
      (.failed msg,
        { out with stdoutBytes := out.stdoutBytes ++ strBytes msg ++ [10] }) := rfl

end Monadish

theorem runMain_of_runSteps_failed (o : Oracle) (r : Nat) (msg : String)
    (t : List SysCall) (h : runSteps o = some (.failed msg, t)) :
    runMain o r = some (EXIT_FAILURE,
      { stdoutBytes := strBytes msg ++ [10], stderrBytes := [] }, t) := by
  simp [runMain, h, Monadish.dump_failed, Monadish.getExitCode, emptyOut]

theorem runMain_of_runSteps_active (o : Oracle) (r : Nat) (env : Monadish.Env)
    (t : List SysCall) (h : runSteps o = some (.active env, t)) :
    runMain o r = some (EXIT_SUCCESS,
      { stdoutBytes := env.received, stderrBytes := [] }, t) := by
  simp [runMain, h, Monadish.dump_active, Monadish.getExitCode, emptyOut]

theorem runMain_inv (o : Oracle) (r : Nat) (code : Nat) (out : IOOut)
    (t : List SysCall) (h : runMain o r = some (code, out, t)) :
    ∃ c, runSteps o = some (c, t) ∧ code = Monadish.getExitCode c := by
  rcases hrs : runSteps o with _ | ⟨c, t'⟩
  · rw [runMain, hrs] at h; exact absurd h (by simp)
  · rw [runMain, hrs] at h
    simp only [Option.some.injEq, Prod.mk.injEq] at h
    refine ⟨c, ?_, ?_⟩
    · rw [h.2.2]
    · cases c with
      | active env => rw [← h.1]; rfl
      | failed msg => rw [← h.1]; rfl

/-- Core of the round trip: with every pre-drain call succeeding and a
recv trace delivering `B` then closing, the pipeline ends `Active` with
buffer `B` and the run writes exactly `B` to standard output. -/
theorem roundTrip_core (B : List Nat) (o : Oracle) (r : Nat)
    (hok : stepsOk o) (hev : deliversThenCloses B o.recvEvents) :
    ∃ t, runSteps o = some (.active (envAfterAccept o B), t) ∧
      runMain o r = some (EXIT_SUCCESS,
        { stdoutBytes := B, stderrBytes := [] }, t) := by
  obtain ⟨chunks, rest, hevs, hval, hflat⟩ := hev
  have hne : ∀ c ∈ chunks, c ≠ [] := fun c hc => (hval c hc).1
  have hdl := Monadish.drainLoop_close chunks hne [] rest
  rw [← hevs, List.nil_append, hflat] at hdl
  have hrs := Monadish.runSteps_allOk o hok
  rw [hdl] at hrs
  refine ⟨_, hrs, ?_⟩
  have h := runMain_of_runSteps_active o r (envAfterAccept o B) _ hrs
  rw [h]
  rfl

theorem runSteps_active_iff (o : Oracle) (c : Monadish.Context) (t : List SysCall)
    (h : runSteps o = some (c, t)) :
    (∃ env, c = .active env) ↔ (stepsOk o ∧ closedGracefully o.recvEvents) := by
  by_cases hw : o.wsaResult = 0
  case neg =>
    rw [Monadish.runSteps_wsaFail o hw] at h
    simp only [Option.some.injEq, Prod.mk.injEq] at h
    rw [← h.1]
    simp [stepsOk, hw]
  by_cases hs : o.socketResult = INVALID_SOCKET
  case pos =>
    rw [Monadish.runSteps_socketFail o hw hs] at h
    simp only [Option.some.injEq, Prod.mk.injEq] at h
    rw [← h.1]
    simp [stepsOk, hs]
  by_cases hb : o.bindResult = SOCKET_ERROR
  case pos =>
    rw [Monadish.runSteps_bindFail o hw hs hb] at h
    simp only [Option.some.injEq, Prod.mk.injEq] at h
    rw [← h.1]
    simp [stepsOk, hb]
  by_cases hl : o.listenResult = SOCKET_ERROR
  case pos =>
    rw [Monadish.runSteps_listenFail o hw hs hb hl] at h
    simp only [Option.some.injEq, Prod.mk.injEq] at h
    rw [← h.1]
    simp [stepsOk, hl]
  by_cases ha : o.acceptResult = INVALID_SOCKET
  case pos =>
    rw [Monadish.runSteps_acceptFail o hw hs hb hl ha] at h
    simp only [Option.some.injEq, Prod.mk.injEq] at h
    rw [← h.1]
    simp [stepsOk, ha]
  have hok : stepsOk o := ⟨hw, hs, hb, hl, ha⟩
  rw [Monadish.runSteps_allOk o hok] at h
  rcases hd : Monadish.drainLoop [] o.recvEvents with _ | ⟨r, fin, n⟩
  · rw [hd] at h; exact absurd h (by simp)
  · rw [hd] at h
    cases r with
    | nil =>
      simp only [Option.some.injEq, Prod.mk.injEq] at h
      rw [← h.1]
      have hcl : closedGracefully o.recvEvents :=
        (Monadish.drainLoop_nil_iff o.recvEvents []).mp ⟨fin, n, hd⟩
      simp [hok, hcl]
    | error msg =>
      simp only [Option.some.injEq, Prod.mk.injEq] at h
      rw [← h.1]
      constructor
      · rintro ⟨env, henv⟩; exact absurd henv (by simp)
      · rintro ⟨-, hcl⟩
        rcases (Monadish.drainLoop_nil_iff o.recvEvents []).mpr hcl with ⟨fin', n', hd'⟩
        rw [hd] at hd'
        exact absurd hd' (by simp)

namespace Monadish

theorem drainSocket_active (env : Env) (evs : List RecvEvent) :
    drainSocket (.active env) evs =
      match drainLoop env.received evs with
      | none => none
      | some (.nil, fin, n) =>
        some (.active { env with received := fin },
          List.replicate n (.recv env.incomingDataSocket 4096))
      | some (.error msg, _, n) =>
        some (.failed msg, List.replicate n (.recv env.incomingDataSocket 4096)) := rfl

end Monadish

/-! ### Concrete runs used by the witnesses -/

def oracleHello : Oracle :=
  { wsaResult := 0, socketResult := 3, bindResult := 0, listenResult := 0,
    acceptResult := 4,
    recvEvents := [RecvEvent.chunk [104, 105], RecvEvent.chunk []] }

def oracleWsaFail : Oracle :=
  { wsaResult := 1, socketResult := 3, bindResult := 0, listenResult := 0,
    acceptResult := 4, recvEvents := [] }

def oracleBindFail : Oracle :=
  { wsaResult := 0, socketResult := 3, bindResult := -1, listenResult := 0,
    acceptResult := 4, recvEvents := [] }

def oracleSplit : Oracle :=
  { wsaResult := 0, socketResult := 3, bindResult := 0, listenResult := 0,
    acceptResult := 4,
    recvEvents := [RecvEvent.chunk [1], RecvEvent.chunk [2], RecvEvent.chunk [3],
      RecvEvent.chunk []] }

def oracleBulk : Oracle :=
  { wsaResult := 0, socketResult := 3, bindResult := 0, listenResult := 0,
    acceptResult := 4, recvEvents := [RecvEvent.chunk [1, 2, 3], RecvEvent.chunk []] }

def env0 : Monadish.Env :=
  { wsaData := (), socket := 3, addr := sockAddrForPort 9999
    incomingDataSocket := 4, received := [] }

/-! ### Claims -/

/-- C1: round-trip fidelity — for every byte sequence `B`, if the peer
connects (all pre-drain calls succeed) and the recv sequence delivers
exactly the bytes of `B` in order, split into nonempty chunks of at most
4096 bytes, followed by a zero-byte read, then the report step writes
exactly `B` to standard output, with no truncation, duplication or
reordering, and the run succeeds. -/
theorem C1_round_trip_fidelity (B : List Nat) (o : Oracle) (r : Nat)
    (hok : stepsOk o) (hev : deliversThenCloses B o.recvEvents) :
    ∃ t, runMain o r = some (EXIT_SUCCESS,
      { stdoutBytes := B, stderrBytes := [] }, t) := by
  obtain ⟨t, -, hm⟩ := roundTrip_core B o r hok hev
  exact ⟨t, hm⟩

/-- Witness for C1 at `B = "hi"` delivered in one chunk. -/
theorem C1_round_trip_fidelity_witness :
    ∃ t, runMain oracleHello 2 = some (EXIT_SUCCESS,
      { stdoutBytes := [104, 105], stderrBytes := [] }, t) :=
  C1_round_trip_fidelity [104, 105] oracleHello 2 (by decide)
    ⟨[[104, 105]], [], rfl, by decide, rfl⟩

/-- C2 counterexample: in the run where WSAStartup fails with status 1,
the diagnostic (with a trailing newline) is written to standard output —
which is therefore nonempty — and nothing is ever written to standard
error, contradicting the claim that the diagnostic goes to standard error
and that standard output stays empty. (`dump`'s failure branch uses
`std::cout`.) -/
theorem C2_counterexample :
    runMain oracleWsaFail 0 =
      some (EXIT_FAILURE,
        { stdoutBytes := strBytes "WSAStartup failed: 1" ++ [10], stderrBytes := [] },
        [SysCall.wsaStartup]) ∧
    strBytes "WSAStartup failed: 1" ++ [10] ≠ [] := by
  exact ⟨by decide, by decide⟩

/-- C2 amended: for every run in which the Capture State is Failed when
the report step executes, the diagnostic message is written,
newline-terminated, to standard output (via `std::cout`), nothing at all
is written to standard error, and the captured buffer is not emitted. -/
theorem C2_failure_reporting (o : Oracle) (r : Nat) (msg : String)
    (t : List SysCall) (h : runSteps o = some (.failed msg, t)) :
    runMain o r = some (EXIT_FAILURE,
      { stdoutBytes := strBytes msg ++ [10], stderrBytes := [] }, t) :=
  runMain_of_runSteps_failed o r msg t h

/-- Witness for the amended C2 at the WSAStartup-failure run. -/
theorem C2_failure_reporting_witness :
    runMain oracleWsaFail 0 = some (EXIT_FAILURE,
      { stdoutBytes := strBytes "WSAStartup failed: 1" ++ [10], stderrBytes := [] },
      [SysCall.wsaStartup]) :=
  C2_failure_reporting oracleWsaFail 0 "WSAStartup failed: 1"
    [SysCall.wsaStartup] (by decide)

/-- C3: Failed is absorbing — every pipeline step applied to a Failed
context returns the very same Failed context (same diagnostic), performs
no system call, and never transitions back to Active. -/
theorem C3_failed_absorbing (msg : String) (w : Int) (s : Nat) (port : Nat)
    (b l : Int) (a : Nat) (evs : List RecvEvent) :
    Monadish.init (.failed msg) w = (.failed msg, []) ∧
    Monadish.setupTcpSocket (.failed msg) s = (.failed msg, []) ∧
    Monadish.sockAddrForPort (.failed msg) port = (.failed msg, []) ∧
    Monadish.bindSocket (.failed msg) b = (.failed msg, []) ∧
    Monadish.listenSocket (.failed msg) l = (.failed msg, []) ∧
    Monadish.acceptSocket (.failed msg) a = (.failed msg, []) ∧
    Monadish.drainSocket (.failed msg) evs = some (.failed msg, []) :=
  ⟨rfl, rfl, rfl, rfl, rfl, rfl, rfl⟩

/-- C5: drain termination and error transition — the loop ends in `Nil`
exactly when the trace reaches a zero-byte read first (equivalently, the
trace decomposes into nonempty chunks followed by a zero-byte read); a
transport error makes the drain step produce a Failed context carrying
the read diagnostic (abandoning the partial capture, which only the now
unreachable Active variant held); and a non-zero non-error read of `bs`
appends exactly `bs` to the buffer and continues. -/
theorem C5_drain_termination_and_error (evs : List RecvEvent) :
    (∀ acc, (∃ fin n, Monadish.drainLoop acc evs =
        some (Monadish.MResult.nil, fin, n)) ↔ closedGracefully evs) ∧
    (closedGracefully evs ↔
      ∃ (chunks : List (List Nat)) (rest : List RecvEvent),
        evs = List.map RecvEvent.chunk chunks ++ RecvEvent.chunk [] :: rest ∧
        ∀ c ∈ chunks, c ≠ []) ∧
    (∀ (env : Monadish.Env) (chunks : List (List Nat)) (rest : List RecvEvent),
      (∀ c ∈ chunks, c ≠ []) →
      evs = List.map RecvEvent.chunk chunks ++ RecvEvent.sockError :: rest →
      Monadish.drainSocket (.active env) evs =
        some (.failed "socket error during read",
          List.replicate (chunks.length + 1)
            (SysCall.recv env.incomingDataSocket 4096))) ∧
    (∀ (acc bs : List Nat) (rest : List RecvEvent), bs ≠ [] →
      Monadish.drainLoop acc (RecvEvent.chunk bs :: rest) =
        match Monadish.drainLoop (acc ++ bs) rest with
        | none => none
        | some (r, fin, n) => some (r, fin, n + 1)) := by
  refine ⟨Monadish.drainLoop_nil_iff evs,
    Monadish.closedGracefully_iff_decomp evs, ?_, ?_⟩
  · intro env chunks rest hne hevs
    subst hevs
    rw [Monadish.drainSocket_active,
      Monadish.drainLoop_error chunks hne env.received rest]
  · intro acc bs rest hbs
    rw [Monadish.drainLoop_chunk_eq, if_neg hbs]

/-- Witness for C5: a one-chunk read followed by a transport error fails
the drain with the read diagnostic after two recv calls. -/
theorem C5_drain_termination_witness :
    Monadish.drainSocket (.active env0) [RecvEvent.chunk [7], RecvEvent.sockError] =
      some (.failed "socket error during read",
        List.replicate 2 (SysCall.recv 4 4096)) :=
  (C5_drain_termination_and_error [RecvEvent.chunk [7], RecvEvent.sockError]).2.2.1
    env0 [[7]] [] (by decide) rfl

/-- C9: the address-setup step is infallible — on an Active context it
always succeeds (returns the updated Active context, never Failed), while
each of the six other pre-report steps has an input that does produce a
Failed state from an Active one. -/
theorem C9_sockaddr_step_infallible (env : Monadish.Env) (port : Nat) :
    Monadish.sockAddrForPort (.active env) port =
      (.active { env with addr := sockAddrForPort port }, []) ∧
    Monadish.init (.active env) 1 =
      (.failed "WSAStartup failed: 1", [SysCall.wsaStartup]) ∧
    Monadish.setupTcpSocket (.active env) INVALID_SOCKET =
      (.failed "Couldn't create a tcp socket", [SysCall.socketCreate]) ∧
    Monadish.bindSocket (.active env) SOCKET_ERROR =
      (.failed "socket bind error", [SysCall.bind env.socket env.addr]) ∧
    Monadish.listenSocket (.active env) SOCKET_ERROR =
      (.failed "socket listen error", [SysCall.listen env.socket 1]) ∧
    Monadish.acceptSocket (.active env) INVALID_SOCKET =
      (.failed "socket accept error", [SysCall.accept env.socket]) ∧
    Monadish.drainSocket (.active env) [RecvEvent.sockError] =
      some (.failed "socket error during read",
        [SysCall.recv env.incomingDataSocket 4096]) := by
  refine ⟨rfl, ?_, ?_, ?_, ?_, ?_, ?_⟩
  · exact Monadish.init_err env 1 (by decide)
  · exact Monadish.setupTcpSocket_err env INVALID_SOCKET rfl
  · exact Monadish.bindSocket_err env SOCKET_ERROR rfl
  · exact Monadish.listenSocket_err env SOCKET_ERROR rfl
  · exact Monadish.acceptSocket_err env INVALID_SOCKET rfl
  · rw [Monadish.drainSocket_active, Monadish.drainLoop_sockError_eq]
    rfl

/-- C10: the report step on an Active context ignores the result of the
`fwrite` to standard output: its outcome is identical for any write
result, the context is left unchanged (the callable returns `Nil`
unconditionally), and the exit code computed after the report step is the
success code for an Active context no matter how the write went. -/
theorem C10_fwrite_result_ignored (env : Monadish.Env) (ctx : Monadish.Context)
    (out : IOOut) (r r' : Nat) :
    Monadish.dump (.active env) out r = Monadish.dump (.active env) out r' ∧
    (Monadish.dump ctx out r).1 = ctx ∧
    Monadish.getExitCode (Monadish.dump ctx out r).1 = Monadish.getExitCode ctx ∧
    Monadish.getExitCode (Monadish.dump (.active env) out r).1 = EXIT_SUCCESS := by
  refine ⟨rfl, ?_, ?_, rfl⟩ <;> cases ctx <;> rfl

/-- C4: exit status correctness — a terminating run exits with the
success code exactly when every pre-drain call succeeded (in particular a
connection was accepted) and the drain ended by a zero-byte read, and in
general the exit code is the success code exactly when the final Capture
State is Active and the failure code exactly when it is Failed. -/
theorem C4_exit_status_correctness (o : Oracle) (r : Nat) (code : Nat)
    (out : IOOut) (t : List SysCall) (h : runMain o r = some (code, out, t)) :
    (code = EXIT_SUCCESS ↔ stepsOk o ∧ closedGracefully o.recvEvents) ∧
    (∀ c t', runSteps o = some (c, t') →
      ((code = EXIT_SUCCESS ↔ ∃ env, c = Monadish.Context.active env) ∧
       (code = EXIT_FAILURE ↔ ∃ msg, c = Monadish.Context.failed msg))) := by
  obtain ⟨c, hrs, hcode⟩ := runMain_inv o r code out t h
  have hiff := runSteps_active_iff o c t hrs
  constructor
  · cases c with
    | active env =>
      rw [hcode]
      simp only [Monadish.getExitCode]
      exact ⟨fun _ => hiff.mp ⟨env, rfl⟩, fun _ => trivial⟩
    | failed msg =>
      rw [hcode]
      simp only [Monadish.getExitCode]
      constructor
      · intro habs; exact absurd habs (by decide)
      · intro hok
        rcases hiff.mpr hok with ⟨env, henv⟩
        exact absurd henv (by simp)
  · intro c' t' h'
    rw [hrs] at h'
    have hc : c = c' := by
      simp only [Option.some.injEq, Prod.mk.injEq] at h'
      exact h'.1
    subst hc
    cases c with
    | active env =>
      rw [hcode]
      simp only [Monadish.getExitCode]
      refine ⟨⟨fun _ => ⟨env, rfl⟩, fun _ => trivial⟩, ?_, ?_⟩
      · intro habs; exact absurd habs (by decide)
      · rintro ⟨msg, hmsg⟩; exact absurd hmsg (by simp)
    | failed msg =>
      rw [hcode]
      simp only [Monadish.getExitCode]
      refine ⟨⟨?_, ?_⟩, fun _ => ⟨msg, rfl⟩, fun _ => trivial⟩
      · intro habs; exact absurd habs (by decide)
      · rintro ⟨env, henv⟩; exact absurd henv (by simp)

/-- Witness for C4: the successful "hi" run satisfies both sides of the
success equivalence. -/
theorem C4_exit_status_correctness_witness :
    stepsOk oracleHello ∧ closedGracefully oracleHello.recvEvents := by
  have h := C4_exit_status_correctness oracleHello 2 EXIT_SUCCESS
    { stdoutBytes := [104, 105], stderrBytes := [] }
    [SysCall.wsaStartup, SysCall.socketCreate,
     SysCall.bind 3 (sockAddrForPort 9999), SysCall.listen 3 1, SysCall.accept 3,
     SysCall.recv 4 4096, SysCall.recv 4 4096] (by decide)
  exact h.1.mp rfl

/-- C6 counterexample: in the run where bind fails, the bind diagnostic
(with a trailing newline) is written to standard output — which is
therefore not empty — and standard error stays empty, contradicting the
claim's "standard output remains empty" and "the diagnostic appears on
standard error". -/
theorem C6_counterexample :
    runMain oracleBindFail 0 =
      some (EXIT_FAILURE,
        { stdoutBytes := strBytes "socket bind error" ++ [10], stderrBytes := [] },
        [SysCall.wsaStartup, SysCall.socketCreate,
         SysCall.bind 3 (sockAddrForPort 9999)]) ∧
    strBytes "socket bind error" ++ [10] ≠ [] := by
  exact ⟨by decide, by decide⟩

/-- C6 amended: if the bind step fails, the state becomes Failed with the
bind diagnostic, no accept call and no recv call is ever made, the
newline-terminated diagnostic is written to standard output, standard
error stays empty, and the process exits with the failure status. -/
theorem C6_bind_failure_short_circuit (o : Oracle) (r : Nat)
    (hw : o.wsaResult = 0) (hs : o.socketResult ≠ INVALID_SOCKET)
    (hb : o.bindResult = SOCKET_ERROR) :
    runSteps o = some (.failed "socket bind error",
      [SysCall.wsaStartup, SysCall.socketCreate,
       SysCall.bind o.socketResult (sockAddrForPort 9999)]) ∧
    runMain o r = some (EXIT_FAILURE,
      { stdoutBytes := strBytes "socket bind error" ++ [10], stderrBytes := [] },
      [SysCall.wsaStartup, SysCall.socketCreate,
       SysCall.bind o.socketResult (sockAddrForPort 9999)]) ∧
    (∀ s, SysCall.accept s ∉
      [SysCall.wsaStartup, SysCall.socketCreate,
       SysCall.bind o.socketResult (sockAddrForPort 9999)]) ∧
    (∀ s n, SysCall.recv s n ∉
      [SysCall.wsaStartup, SysCall.socketCreate,
       SysCall.bind o.socketResult (sockAddrForPort 9999)]) := by
  have hsteps := Monadish.runSteps_bindFail o hw hs hb
  refine ⟨hsteps, runMain_of_runSteps_failed o r _ _ hsteps, by simp, by simp⟩

/-- Witness for the amended C6 at the concrete bind-failure run. -/
theorem C6_bind_failure_short_circuit_witness :
    runMain oracleBindFail 0 = some (EXIT_FAILURE,
      { stdoutBytes := strBytes "socket bind error" ++ [10], stderrBytes := [] },
      [SysCall.wsaStartup, SysCall.socketCreate,
       SysCall.bind oracleBindFail.socketResult (sockAddrForPort 9999)]) :=
  (C6_bind_failure_short_circuit oracleBindFail 0 rfl (by decide) rfl).2.1

/-- C7: chunk-boundary insensitivity — two successful runs whose recv
traces deliver the same byte sequence `B` under any chunking end with the
same Captured Buffer (`B`) and write identical bytes (`B`) to standard
output; the result depends only on the concatenation of the chunks. -/
theorem C7_chunk_boundary_insensitivity (B : List Nat) (o1 o2 : Oracle)
    (r1 r2 : Nat) (h1 : stepsOk o1) (h2 : stepsOk o2)
    (he1 : deliversThenCloses B o1.recvEvents)
    (he2 : deliversThenCloses B o2.recvEvents) :
    ∃ t1 t2,
      runSteps o1 = some (.active (envAfterAccept o1 B), t1) ∧
      runSteps o2 = some (.active (envAfterAccept o2 B), t2) ∧
      (envAfterAccept o1 B).received = (envAfterAccept o2 B).received ∧
      runMain o1 r1 = some (EXIT_SUCCESS,
        { stdoutBytes := B, stderrBytes := [] }, t1) ∧
      runMain o2 r2 = some (EXIT_SUCCESS,
        { stdoutBytes := B, stderrBytes := [] }, t2) := by
  obtain ⟨t1, hs1, hm1⟩ := roundTrip_core B o1 r1 h1 he1
  obtain ⟨t2, hs2, hm2⟩ := roundTrip_core B o2 r2 h2 he2
  exact ⟨t1, t2, hs1, hs2, rfl, hm1, hm2⟩

/-- Witness for C7: `[1, 2, 3]` sent as three 1-byte chunks versus one
bulk chunk produces the same standard output. -/
theorem C7_chunk_boundary_insensitivity_witness :
    ∃ t1 t2,
      runSteps oracleSplit = some (.active (envAfterAccept oracleSplit [1, 2, 3]), t1) ∧
      runSteps oracleBulk = some (.active (envAfterAccept oracleBulk [1, 2, 3]), t2) ∧
      (envAfterAccept oracleSplit [1, 2, 3]).received =
        (envAfterAccept oracleBulk [1, 2, 3]).received ∧
      runMain oracleSplit 0 = some (EXIT_SUCCESS,
        { stdoutBytes := [1, 2, 3], stderrBytes := [] }, t1) ∧
      runMain oracleBulk 0 = some (EXIT_SUCCESS,
        { stdoutBytes := [1, 2, 3], stderrBytes := [] }, t2) :=
  C7_chunk_boundary_insensitivity [1, 2, 3] oracleSplit oracleBulk 0 0
    (by decide) (by decide)
    ⟨[[1], [2], [3]], [], rfl, by decide, rfl⟩
    ⟨[[1, 2, 3]], [], rfl, by decide, rfl⟩

/-- C8: fixed configuration — whenever the run makes a bind call it is on
the created socket with the wildcard 0.0.0.0 address and hard-coded port
9999 (in network byte order), whenever it makes a listen call the backlog
is exactly 1, at most one accept call is ever made, and exactly one
accept call is made whenever the steps before accept all succeed. -/
theorem C8_fixed_configuration (o : Oracle) (r : Nat) (code : Nat) (out : IOOut)
    (t : List SysCall) (h : runMain o r = some (code, out, t)) :
    sockAddrForPort 9999 =
      { sin_family := AF_INET, sin_port := htons 9999
        s_b1 := 0, s_b2 := 0, s_b3 := 0, s_b4 := 0 } ∧
    (∀ s a, SysCall.bind s a ∈ t → s = o.socketResult ∧ a = sockAddrForPort 9999) ∧
    (∀ s n, SysCall.listen s n ∈ t → s = o.socketResult ∧ n = 1) ∧
    List.countP isAcceptCall t ≤ 1 ∧
    ((o.wsaResult = 0 ∧ o.socketResult ≠ INVALID_SOCKET ∧
      o.bindResult ≠ SOCKET_ERROR ∧ o.listenResult ≠ SOCKET_ERROR) →
      List.countP isAcceptCall t = 1) := by
  obtain ⟨c, hrs, -⟩ := runMain_inv o r code out t h
  refine ⟨rfl, ?_⟩
  by_cases hw : o.wsaResult = 0
  case neg =>
    rw [Monadish.runSteps_wsaFail o hw] at hrs
    have ht : t = [SysCall.wsaStartup] := by
      simp only [Option.some.injEq, Prod.mk.injEq] at hrs
      exact hrs.2.symm
    subst ht
    exact ⟨by simp, by simp, by decide, fun hpre => absurd hpre.1 hw⟩
  by_cases hs : o.socketResult = INVALID_SOCKET
  case pos =>
    rw [Monadish.runSteps_socketFail o hw hs] at hrs
    have ht : t = [SysCall.wsaStartup, SysCall.socketCreate] := by
      simp only [Option.some.injEq, Prod.mk.injEq] at hrs
      exact hrs.2.symm
    subst ht
    exact ⟨by simp, by simp, by decide, fun hpre => absurd hs hpre.2.1⟩
  by_cases hb : o.bindResult = SOCKET_ERROR
  case pos =>
    rw [Monadish.runSteps_bindFail o hw hs hb] at hrs
    have ht : t = [SysCall.wsaStartup, SysCall.socketCreate,
        SysCall.bind o.socketResult (win32SockAddrForPort 9999)] := by
      simp only [Option.some.injEq, Prod.mk.injEq] at hrs
      exact hrs.2.symm
    subst ht
    refine ⟨?_, by simp, ?_, fun hpre => absurd hb hpre.2.2.1⟩
    · intro s a hm
      simp only [List.mem_cons, List.not_mem_nil, or_false] at hm
      simpa [win32SockAddrForPort] using hm
    · simp [isAcceptCall, List.countP_cons, List.countP_nil]
  by_cases hl : o.listenResult = SOCKET_ERROR
  case pos =>
    rw [Monadish.runSteps_listenFail o hw hs hb hl] at hrs
    have ht : t = [SysCall.wsaStartup, SysCall.socketCreate,
        SysCall.bind o.socketResult (win32SockAddrForPort 9999),
        SysCall.listen o.socketResult 1] := by
      simp only [Option.some.injEq, Prod.mk.injEq] at hrs
      exact hrs.2.symm
    subst ht
    refine ⟨?_, ?_, ?_, fun hpre => absurd hl hpre.2.2.2⟩
    · intro s a hm
      simp only [List.mem_cons, List.not_mem_nil, or_false] at hm
      simpa [win32SockAddrForPort] using hm
    · intro s n hm
      simp only [List.mem_cons, List.not_mem_nil, or_false] at hm
      simpa using hm
    · simp [isAcceptCall, List.countP_cons, List.countP_nil]
  by_cases ha : o.acceptResult = INVALID_SOCKET
  case pos =>
    rw [Monadish.runSteps_acceptFail o hw hs hb hl ha] at hrs
    have ht : t = [SysCall.wsaStartup, SysCall.socketCreate,
        SysCall.bind o.socketResult (win32SockAddrForPort 9999),
        SysCall.listen o.socketResult 1, SysCall.accept o.socketResult] := by
      simp only [Option.some.injEq, Prod.mk.injEq] at hrs
      exact hrs.2.symm
    subst ht
    refine ⟨?_, ?_, ?_, fun hpre => ?_⟩
    · intro s a hm
      simp only [List.mem_cons, List.not_mem_nil, or_false] at hm
      simpa [win32SockAddrForPort] using hm
    · intro s n hm
      simp only [List.mem_cons, List.not_mem_nil, or_false] at hm
      simpa using hm
    · simp [isAcceptCall, List.countP_cons, List.countP_nil]
    · simp [isAcceptCall, List.countP_cons, List.countP_nil]
  rw [Monadish.runSteps_allOk o ⟨hw, hs, hb, hl, ha⟩] at hrs
  rcases hd : Monadish.drainLoop [] o.recvEvents with _ | ⟨rr, fin, n⟩
  · rw [hd] at hrs
    exact absurd hrs (by simp)
  · rw [hd] at hrs
    have ht : t = [SysCall.wsaStartup, SysCall.socketCreate,
        SysCall.bind o.socketResult (win32SockAddrForPort 9999),
        SysCall.listen o.socketResult 1, SysCall.accept o.socketResult] ++
        List.replicate n (SysCall.recv o.acceptResult 4096) := by
      cases rr with
      | nil =>
        simp only [Option.some.injEq, Prod.mk.injEq] at hrs
        exact hrs.2.symm
      | error msg =>
        simp only [Option.some.injEq, Prod.mk.injEq] at hrs
        exact hrs.2.symm
    subst ht
    refine ⟨?_, ?_, ?_, fun _ => ?_⟩
    · intro s a hm
      simp only [List.mem_append, List.mem_cons, List.not_mem_nil, or_false,
        List.mem_replicate] at hm
      rcases hm with hm | hm
      · simpa [win32SockAddrForPort] using hm
      · exact absurd hm.2 (by simp)
    · intro s n' hm
      simp only [List.mem_append, List.mem_cons, List.not_mem_nil, or_false,
        List.mem_replicate] at hm
      rcases hm with hm | hm
      · simpa using hm
      · exact absurd hm.2 (by simp)
    · simp [isAcceptCall, List.countP_append, List.countP_replicate,
        List.countP_cons, List.countP_nil]
    · simp [isAcceptCall, List.countP_append, List.countP_replicate,
        List.countP_cons, List.countP_nil]

/-- Witness for C8 at the successful "hi" run: the trace contains one
accept call. -/
theorem C8_fixed_configuration_witness :
    List.countP isAcceptCall
      [SysCall.wsaStartup, SysCall.socketCreate,
       SysCall.bind 3 (sockAddrForPort 9999), SysCall.listen 3 1, SysCall.accept 3,
       SysCall.recv 4 4096, SysCall.recv 4 4096] = 1 := by
  have h := C8_fixed_configuration oracleHello 2 EXIT_SUCCESS
    { stdoutBytes := [104, 105], stderrBytes := [] }
    [SysCall.wsaStartup, SysCall.socketCreate,
     SysCall.bind 3 (sockAddrForPort 9999), SysCall.listen 3 1, SysCall.accept 3,
     SysCall.recv 4 4096, SysCall.recv 4 4096] (by decide)
  exact h.2.2.2.2 (by decide)
